import Mathlib

/-!
Shallow embedding of `src/app/api/webhook/calendly/route.js`
(magicalteams/calendly-notetaker), together with theorems settling the
frozen claims about it.

JavaScript values reaching the handler (results of `JSON.parse`, header
lookups, environment variables) are modelled by `JsVal` / `Option String`;
JavaScript exceptions are modelled by `Except String`; the external
HMAC-SHA256 primitive (`crypto.createHmac(...).digest("hex")`) is a
parameter `hmac : String → String → String` (key, message ↦ hex digest),
since the verification routine only ever compares its output against the
header, never inspects it.
-/

namespace CalendlyNotetaker

/-- A JavaScript value as it can appear in a parsed JSON payload, plus
`undef` for JavaScript's `undefined` (absent properties). -/
inductive JsVal where
  | undefined
  | null
  | bool (b : Bool)
  | num (n : Int)
  | str (s : String)
  | arr (xs : List JsVal)
  | obj (fields : List (String × JsVal))

/-- JavaScript truthiness: `undefined`, `null`, `false`, `0`, and `""` are
falsy; everything else (including `[]` and `{}`) is truthy. -/
def jsTruthy : JsVal → Bool
  | .undefined => false
  | .null => false
  | .bool b => b
  | .num n => n != 0
  | .str s => s != ""
  | .arr _ => true
  | .obj _ => true

/-- Property access `v.k` on a value known not to be `null`/`undefined`
(non-objects yield `undefined`; objects yield the field or `undefined`). -/
def jsField : JsVal → String → JsVal
  | .obj fields, k => (fields.lookup k).getD .undefined
  | _, _ => .undefined

/-- Property access `v.k` where `v` may be `null`/`undefined`, in which
case JavaScript throws a `TypeError`. -/
def jsFieldE : JsVal → String → Except String JsVal
  | .undefined, k => .error ("TypeError: Cannot read properties of undefined (reading " ++ k ++ ")")
  | .null, k => .error ("TypeError: Cannot read properties of null (reading " ++ k ++ ")")
  | v, k => .ok (jsField v k)

/-- Optional chaining `v?.k`: `undefined` when `v` is `null`/`undefined`. -/
def jsOptField (v : JsVal) (k : String) : JsVal :=
  match v with
  | .undefined => .undefined
  | .null => .undefined
  | _ => jsField v k

/-- JavaScript `a || b`. -/
def jsOr (a b : JsVal) : JsVal :=
  if jsTruthy a then a else b

/-- The string content of a value that is a string, `""` otherwise (used
only where the embedded code guarantees the value is a string). -/
def stringOfJs : JsVal → String
  | .str s => s
  | _ => ""

/-- `Object.keys(v)`: throws a `TypeError` on `null`/`undefined`, returns
the own property names of an object, and `[]`-like results otherwise
(string indices are irrelevant to the embedded code, which only logs them). -/
def objectKeysE : JsVal → Except String (List String)
  | .undefined => .error "TypeError: Cannot convert undefined or null to object"
  | .null => .error "TypeError: Cannot convert undefined or null to object"
  | .obj fields => .ok (fields.map Prod.fst)
  | _ => .ok []

/-- JavaScript `s.toLowerCase()` on a string: lower-case each character. -/
def jsToLower (s : String) : String :=
  String.mk (s.data.map Char.toLower)

/-- `v?.toLowerCase()`: `undefined` propagates, a string is lower-cased,
and any other value throws (`toLowerCase` is not a function on it). -/
def jsToLowerOpt : JsVal → Except String JsVal
  | .undefined => .ok .undefined
  | .null => .ok .undefined
  | .str s => .ok (.str (jsToLower s))
  | _ => .error "TypeError: toLowerCase is not a function"

/-- Strict equality `v === s` against a string literal. -/
def jsStrictEqStr (v : JsVal) (s : String) : Bool :=
  match v with
  | .str t => t == s
  | _ => false

/-! ## Signature verifier (`verifyCalendlySignature`, route.js lines 54-96) -/

/-- JavaScript `header.split(",")` on the header's character list:
`""` splits to `[""]`, separators at the ends produce empty pieces. -/
def splitOnComma : List Char → List (List Char)
  | [] => [[]]
  | c :: rest =>
    if c = ',' then [] :: splitOnComma rest
    else
      match splitOnComma rest with
      | [] => [[c]]
      | g :: gs => (c :: g) :: gs

/-- The numeric value of a hexadecimal digit, as `Buffer.from(·, "hex")`
accepts them (both cases). -/
def hexDigitVal (c : Char) : Option Nat :=
  if '0' ≤ c ∧ c ≤ '9' then some (c.toNat - '0'.toNat)
  else if 'a' ≤ c ∧ c ≤ 'f' then some (c.toNat - 'a'.toNat + 10)
  else if 'A' ≤ c ∧ c ≤ 'F' then some (c.toNat - 'A'.toNat + 10)
  else none

/-- Node's `Buffer.from(s, "hex")`: decode hex-digit pairs from the left,
stopping at the first invalid or incomplete pair. -/
def hexDecode : List Char → List Nat
  | c1 :: c2 :: rest =>
    match hexDigitVal c1, hexDigitVal c2 with
    | some hi, some lo => (16 * hi + lo) :: hexDecode rest
    | _, _ => []
  | _ => []

/-- `verifyCalendlySignature(payload, signatureHeader, signingKey)`
(route.js lines 54-96). `hmac key msg` stands for
`crypto.createHmac("sha256", key).update(msg).digest("hex")`. The header
and key are `Option String` (`none` = absent); absent or empty values are
falsy, hitting the early `return false`. `crypto.timingSafeEqual` is byte
equality, only reached after the explicit length check. -/
def verifyCalendlySignature (hmac : String → String → String)
    (payload : String) (signatureHeader : Option String)
    (signingKey : Option String) : Bool :=
  match signatureHeader, signingKey with
  | some header, some key =>
    if header = "" ∨ key = "" then false
    else
      let parts := splitOnComma header.data
      match parts.find? (fun p => List.isPrefixOf ['t', '='] p),
            parts.find? (fun p => List.isPrefixOf ['v', '1', '='] p) with
      | some timestampPart, some signaturePart =>
        let timestamp := timestampPart.drop 2
        let signature := signaturePart.drop 3
        let signedPayload := String.mk timestamp ++ "." ++ payload
        let expectedSignature := hmac key signedPayload
        let sigBuffer := hexDecode signature
        let expectedBuffer := hexDecode expectedSignature.data
        if sigBuffer.length ≠ expectedBuffer.length then false
        else sigBuffer == expectedBuffer
      | _, _ => false
  | _, _ => false

/-! ## Event detail extractor (`extractEventDetails`, route.js lines 135-188) -/

/-- The flat record returned by `extractEventDetails`. `hostEmail` and
`inviteeEmail` are strings by construction (lower-cased or defaulted to
`""`); the remaining payload-derived fields keep their JavaScript value. -/
structure EventDetails where
  hostEmail : String
  inviteeEmail : String
  externalId : JsVal
  calendarId : String
  eventName : JsVal
  eventUri : JsVal
  startTime : JsVal
  endTime : JsVal
  rawScheduledEvent : JsVal

/-- `eventMemberships.find((m) => m.user)` (route.js line 147): throws when
the base is not an array (`find` is not a function on it) or when an element
inspected before the first match is `null`/`undefined` (`m.user` throws);
otherwise returns the first element with a truthy `user` property, or
`undefined`. -/
def findWithUser : JsVal → Except String JsVal
  | .arr ms => findWithUserGo ms
  | _ => .error "TypeError: find is not a function"
where
  findWithUserGo : List JsVal → Except String JsVal
  | [] => .ok .undefined
  | m :: rest =>
    match m with
    | .undefined => .error "TypeError: Cannot read properties of undefined (reading user)"
    | .null => .error "TypeError: Cannot read properties of null (reading user)"
    | _ => if jsTruthy (jsField m "user") then .ok m else findWithUserGo rest

/-- The external-identifier computation of `extractEventDetails`
(route.js lines 155-166): `scheduled_event.external_id || ""`, then, when
that is falsy and `scheduled_event.calendar_event` is truthy, the fallback
`scheduled_event.calendar_event.external_id || ""`. (The `location` branch
at line 164 only logs.) Total: `scheduledEvent` is never `null`/`undefined`
at the call site, and the fallback access is guarded by truthiness. -/
def externalIdOf (scheduledEvent : JsVal) : JsVal :=
  let externalId := jsOr (jsField scheduledEvent "external_id") (.str "")
  if !jsTruthy externalId && jsTruthy (jsField scheduledEvent "calendar_event") then
    jsOr (jsField (jsField scheduledEvent "calendar_event") "external_id") (.str "")
  else externalId

/-- `extractEventDetails(payload)` (route.js lines 135-188). The
`Object.keys(payload)` logging call at line 137 throws on a
`null`/`undefined` payload; after it, `payload` is known non-null, so the
remaining direct property accesses are total. `calendarId` is set to
`hostEmail` (line 174). -/
def extractEventDetails (payload : JsVal) : Except String EventDetails :=
  match objectKeysE payload with
  | .error e => .error e
  | .ok _ =>
    let scheduledEvent := jsOr (jsField payload "scheduled_event") (.obj [])
    let eventMemberships := jsOr (jsField scheduledEvent "event_memberships") (.arr [])
    let invitees := jsOr (jsField payload "invitee") (.obj [])
    match findWithUser eventMemberships with
    | .error e => .error e
    | .ok hostMembership =>
      match jsToLowerOpt (jsOptField hostMembership "user_email") with
      | .error e => .error e
      | .ok hostLowered =>
        let hostEmail := stringOfJs (jsOr hostLowered (.str ""))
        match jsToLowerOpt (jsField invitees "email") with
        | .error e => .error e
        | .ok inviteeLowered =>
          let inviteeEmail := stringOfJs (jsOr inviteeLowered (.str ""))
          .ok { hostEmail := hostEmail
                inviteeEmail := inviteeEmail
                externalId := externalIdOf scheduledEvent
                calendarId := hostEmail
                eventName := jsOr (jsField scheduledEvent "name") (.str "Untitled Event")
                eventUri := jsOr (jsField scheduledEvent "uri") (.str "")
                startTime := jsField scheduledEvent "start_time"
                endTime := jsField scheduledEvent "end_time"
                rawScheduledEvent := scheduledEvent }

/-! ## Configuration (route.js lines 13-30) and environment -/

/-- The authorized host emails (route.js lines 13-17). -/
def AUTHORIZED_HOSTS : List String :=
  ["christina@magicalteams.com",
   "cara@magicalteams.com",
   "mercedes@magicalteams.com"]

/-- The process environment variables the handler reads; `none` = unset. -/
structure Env where
  NOTETAKER_EMAIL : Option String
  CALENDLY_WEBHOOK_SIGNING_KEY : Option String
  GOOGLE_SERVICE_ACCOUNT_KEY : Option String

/-- `process.env.NOTETAKER_EMAIL || "notetaker@magicalteams.com"`
(route.js lines 23-24); an unset or empty variable is falsy. -/
def notetakerEmailOf (env : Env) : String :=
  match env.NOTETAKER_EMAIL with
  | some s => if s = "" then "notetaker@magicalteams.com" else s
  | none => "notetaker@magicalteams.com"

/-- `SYNC_DELAY_MS` (route.js line 30). -/
def SYNC_DELAY_MS : Nat := 5000

/-- The signature gate of `POST` (route.js lines 215-242): the signing key
is `process.env.CALENDLY_WEBHOOK_SIGNING_KEY?.trim()`; when it is set and
non-empty and a signature header is present (truthy), the request passes
exactly when `verifyCalendlySignature` accepts it; when the key is set but
no header is present, or no key is configured, the request passes. -/
def signatureGatePasses (hmac : String → String → String) (rawBody : String)
    (signatureHeader : Option String) (signingKeyEnv : Option String) : Bool :=
  match signingKeyEnv.map String.trim with
  | some signingKey =>
    if signingKey.length > 0 then
      match signatureHeader with
      | some header =>
        if header ≠ "" then
          verifyCalendlySignature hmac rawBody (some header) (some signingKey)
        else true
      | none => true
    else true
  | none => true

/-! ## Remote calendar interaction (route.js lines 296-372) -/

/-- One entry of a Google Calendar event's attendee list; either field may
be absent. -/
structure Attendee where
  email : Option String
  responseStatus : Option String
deriving DecidableEq

/-- The slice of a fetched Google Calendar event the handler reads:
`existingEvent.attendees` may be absent. -/
structure RemoteEvent where
  attendees : Option (List Attendee)

/-- A JavaScript error as the handler inspects it: `error.code` (absent on
plain `TypeError`s), `error.message`, and `error.errors` (the Google API
detail list, kept opaque). -/
structure GError where
  code : Option Nat
  message : String
  errors : Option String

/-- Outcome of `calendar.events.get` (the external call itself). -/
inductive FetchResult where
  | ok (ev : RemoteEvent)
  | err (e : GError)

/-- Outcome of `calendar.events.patch` (the external call itself). -/
inductive PatchResult where
  | ok
  | err (e : GError)

/-- An outbound Google Calendar call as issued by the handler. -/
inductive Call where
  | get (calendarId : String) (eventId : JsVal)
  | patch (calendarId : String) (eventId : JsVal)
      (attendees : List Attendee) (sendUpdates : String)

/-- The distinct response bodies `POST` can produce (route.js; field lists
follow the JSON objects passed to `NextResponse.json`). `processingTime`
of the success body is wall-clock time and is not modelled. -/
inductive RespBody where
  | invalidSignature
  | ignored (eventType : JsVal)
  | notAuthorized (hostEmail : String)
  | missingExternalId
  | notFound (externalId : JsVal)
  | alreadyExists (existingAttendees : List (Option String))
  | success (eventId : JsVal) (eventName : JsVal) (attendees : List (Option String))
  | serverError (message : String) (details : Option String)

/-- An HTTP response: status code plus body shape. -/
structure Resp where
  status : Nat
  body : RespBody

/-- `const statusCode = error.code || 500` (route.js line 389): a truthy
numeric code is used as the status, otherwise 500. -/
def errStatus : Option Nat → Nat
  | some c => if c = 0 then 500 else c
  | none => 500

/-- The membership predicate of route.js line 333:
`a.email?.toLowerCase() === NOTETAKER_EMAIL.toLowerCase()`; an absent
email makes the left side `undefined`, which is never strictly equal to a
string. -/
def attendeeIsNotetaker (notetakerEmail : String) (a : Attendee) : Bool :=
  match a.email with
  | some e => jsToLower e == jsToLower notetakerEmail
  | none => false

/-- `existingAttendees.some(...)` (route.js lines 332-334). -/
def notetakerExists (notetakerEmail : String) (existingAttendees : List Attendee) : Bool :=
  existingAttendees.any (attendeeIsNotetaker notetakerEmail)

/-- `updatedAttendees` (route.js lines 346-352): the existing list with the
notetaker appended, `responseStatus: "needsAction"`. -/
def updatedAttendees (notetakerEmail : String) (existingAttendees : List Attendee) :
    List Attendee :=
  existingAttendees ++ [{ email := some notetakerEmail, responseStatus := some "needsAction" }]

/-- The post-fetch stage of `POST` (route.js lines 328-384): read
`existingEvent.attendees || []`, decide membership; on membership return
the already-exists body with no further call; otherwise issue exactly one
`patch` (with `sendUpdates: "all"`), whose failure is rethrown (line 371)
and whose success yields the success body. Returns the calls issued
together with the response or the propagated error. -/
def processSnapshot (notetakerEmail : String) (details : EventDetails)
    (ev : RemoteEvent) (patchResult : PatchResult) :
    List Call × Except GError Resp :=
  let existingAttendees := ev.attendees.getD []
  if notetakerExists notetakerEmail existingAttendees then
    ([], .ok { status := 200
               body := .alreadyExists (existingAttendees.map (·.email)) })
  else
    let updated := updatedAttendees notetakerEmail existingAttendees
    ([Call.patch details.calendarId details.externalId updated "all"],
     match patchResult with
     | .ok => .ok { status := 200
                    body := .success details.externalId details.eventName
                              (updated.map (·.email)) }
     | .err e => .error e)

/-- `POST(request)` (route.js lines 204-399), after the body has been read
and parsed (`rawBody`, `payload`); `hmac` is the HMAC-SHA256 primitive and
`fetchResult`/`patchResult` are the outcomes the external calendar system
would give the two outbound calls. Returns the response together with the
outbound calls issued. The try-block is modelled with `Except GError`; the
outer catch (lines 385-398) turns a propagated error into the
`{error, message, details}` body with status `error.code || 500`.
`await sleep(SYNC_DELAY_MS)` (line 294) suspends but computes nothing.
Errors thrown without a `code` (TypeErrors from payload access or
extraction, the missing-service-key `Error` of `getCalendarClient`,
route.js lines 107-111) carry `code := none`. -/
def handlePOST (env : Env) (hmac : String → String → String)
    (rawBody : String) (signatureHeader : Option String) (payload : JsVal)
    (fetchResult : FetchResult) (patchResult : PatchResult) : Resp × List Call :=
  let inner : List Call × Except GError Resp :=
    if ¬ signatureGatePasses hmac rawBody signatureHeader env.CALENDLY_WEBHOOK_SIGNING_KEY then
      ([], .ok { status := 401, body := .invalidSignature })
    else
      match jsFieldE payload "event" with
      | .error msg => ([], .error { code := none, message := msg, errors := none })
      | .ok eventType =>
        if ¬ jsStrictEqStr eventType "invitee.created" then
          ([], .ok { status := 200, body := .ignored eventType })
        else
          match jsFieldE payload "payload" with
          | .error msg => ([], .error { code := none, message := msg, errors := none })
          | .ok innerPayload =>
            match extractEventDetails innerPayload with
            | .error msg => ([], .error { code := none, message := msg, errors := none })
            | .ok details =>
              if ¬ AUTHORIZED_HOSTS.contains details.hostEmail then
                ([], .ok { status := 200, body := .notAuthorized details.hostEmail })
              else if ¬ jsTruthy details.externalId then
                ([], .ok { status := 400, body := .missingExternalId })
              else
                match env.GOOGLE_SERVICE_ACCOUNT_KEY with
                | none =>
                  ([], .error { code := none
                                message := "GOOGLE_SERVICE_ACCOUNT_KEY environment variable is not set"
                                errors := none })
                | some _ =>
                  let getCall := Call.get details.calendarId details.externalId
                  match fetchResult with
                  | .err e =>
                    if e.code == some 404 then
                      ([getCall], .ok { status := 404, body := .notFound details.externalId })
                    else
                      ([getCall], .error e)
                  | .ok ev =>
                    let (patchCalls, res) :=
                      processSnapshot (notetakerEmailOf env) details ev patchResult
                    (getCall :: patchCalls, res)
  match inner with
  | (calls, .ok r) => (r, calls)
  | (calls, .error e) =>
    ({ status := errStatus e.code
       body := .serverError e.message e.errors }, calls)

/-! ## Lemmas about the header split -/

theorem splitOnComma_ne_nil (l : List Char) : splitOnComma l ≠ [] := by
  induction l with
  | nil => simp [splitOnComma]
  | cons c rest ih =>
    by_cases hc : c = ','
    · simp [splitOnComma, hc]
    · rcases hr : splitOnComma rest with _ | ⟨g, gs⟩
      · exact absurd hr ih
      · simp [splitOnComma, hc, hr]

theorem splitOnComma_no_comma (l : List Char) (h : ',' ∉ l) : splitOnComma l = [l] := by
  induction l with
  | nil => rfl
  | cons c rest ih =>
    have hc : ¬ c = ',' := fun e => h (e ▸ List.mem_cons_self c rest)
    have hr : splitOnComma rest = [rest] := ih (fun m => h (List.mem_cons_of_mem _ m))
    simp [splitOnComma, hc, hr]

theorem splitOnComma_append (l1 l2 : List Char) (h : ',' ∉ l1) :
    splitOnComma (l1 ++ ',' :: l2) = l1 :: splitOnComma l2 := by
  induction l1 with
  | nil => simp [splitOnComma]
  | cons c rest ih =>
    have hc : ¬ c = ',' := fun e => h (e ▸ List.mem_cons_self c rest)
    have hr : splitOnComma (rest ++ ',' :: l2) = rest :: splitOnComma l2 :=
      ih (fun m => h (List.mem_cons_of_mem _ m))
    simp [splitOnComma, hc, hr]

/-! ## Claims about the signature verifier -/

/-- Claim C1: for every valid timestamp string, raw payload string, and
signing key, calling `verifyCalendlySignature` with the raw payload, the
header `t=<timestamp>,v1=<lowercase-hex HMAC-SHA256(key, timestamp.payload)>`,
and that key returns `true`. A valid timestamp consists of digits and the
digest consists of lowercase-hex characters (what HMAC-SHA256's
`digest("hex")` produces); the key must be present, i.e. non-empty. -/
theorem claim_C1_verify_accepts_valid (hmac : String → String → String)
    (payload timestamp signingKey : String)
    (hkey : signingKey ≠ "")
    (hts : ∀ c ∈ timestamp.data, c.isDigit)
    (hhex : ∀ c ∈ (hmac signingKey (timestamp ++ "." ++ payload)).data,
      c.isDigit ∨ ('a' ≤ c ∧ c ≤ 'f')) :
    verifyCalendlySignature hmac payload
      (some ("t=" ++ timestamp ++ ",v1=" ++ hmac signingKey (timestamp ++ "." ++ payload)))
      (some signingKey) = true := by
  have hncts : ',' ∉ timestamp.data := by
    intro m
    have := hts _ m
    exact absurd this (by decide)
  have hncd : ',' ∉ (hmac signingKey (timestamp ++ "." ++ payload)).data := by
    intro m
    rcases hhex _ m with h | ⟨h1, _⟩
    · exact absurd h (by decide)
    · exact absurd h1 (by decide)
  have hdata : ("t=" ++ timestamp ++ ",v1=" ++
        hmac signingKey (timestamp ++ "." ++ payload)).data
      = ('t' :: '=' :: timestamp.data) ++ ',' ::
        ('v' :: '1' :: '=' :: (hmac signingKey (timestamp ++ "." ++ payload)).data) := by
    show ['t', '='] ++ timestamp.data ++ [',', 'v', '1', '='] ++
        (hmac signingKey (timestamp ++ "." ++ payload)).data = _
    simp
  have hsplit : splitOnComma ("t=" ++ timestamp ++ ",v1=" ++
        hmac signingKey (timestamp ++ "." ++ payload)).data
      = [('t' :: '=' :: timestamp.data),
         ('v' :: '1' :: '=' :: (hmac signingKey (timestamp ++ "." ++ payload)).data)] := by
    rw [hdata, splitOnComma_append _ _ (by simpa using hncts),
        splitOnComma_no_comma _ (by simpa using hncd)]
  have hne : ¬ ("t=" ++ timestamp ++ ",v1=" ++
      hmac signingKey (timestamp ++ "." ++ payload) = "" ∨ signingKey = "") := by
    rintro (h | h)
    · have := congrArg String.data h
      rw [hdata] at this
      exact absurd this (by simp)
    · exact hkey h
  have hfind1 : List.find? (fun p => List.isPrefixOf ['t', '='] p)
      [('t' :: '=' :: timestamp.data),
       ('v' :: '1' :: '=' :: (hmac signingKey (timestamp ++ "." ++ payload)).data)]
      = some ('t' :: '=' :: timestamp.data) := by
    simp [List.find?, List.isPrefixOf]
  have hfind2 : List.find? (fun p => List.isPrefixOf ['v', '1', '='] p)
      [('t' :: '=' :: timestamp.data),
       ('v' :: '1' :: '=' :: (hmac signingKey (timestamp ++ "." ++ payload)).data)]
      = some ('v' :: '1' :: '=' :: (hmac signingKey (timestamp ++ "." ++ payload)).data) := by
    simp [List.find?, List.isPrefixOf]
  have hmk : String.mk timestamp.data = timestamp := rfl
  rw [verifyCalendlySignature, if_neg hne]
  simp only [hsplit, hfind1, hfind2, List.drop_succ_cons, List.drop_zero, hmk]
  simp

/-- Claim C1 witness: a concrete run of the theorem with a toy digest
function. -/
theorem claim_C1_witness :
    verifyCalendlySignature (fun _ _ => "00ff") "{}"
      (some ("t=" ++ "123" ++ ",v1=" ++ (fun _ _ => "00ff") "key" ("123" ++ "." ++ "{}")))
      (some "key") = true :=
  claim_C1_verify_accepts_valid (fun _ _ => "00ff") "{}" "123" "key"
    (by decide) (by decide) (by decide)

/-- Claim C5: when no signing key is configured — the environment variable
is unset or trims to the empty string — the signature gate of `POST`
treats every request as valid, for every raw payload and every signature
header value (present, absent, or malformed). (`verifyCalendlySignature`
itself is then never consulted: route.js lines 238-242 skip it.) -/
theorem claim_C5_no_key_skips_verification (hmac : String → String → String)
    (rawBody : String) (signatureHeader : Option String)
    (signingKeyEnv : Option String)
    (h : signingKeyEnv = none ∨ ∃ k, signingKeyEnv = some k ∧ k.trim = "") :
    signatureGatePasses hmac rawBody signatureHeader signingKeyEnv = true := by
  rcases h with h | ⟨k, hk, htrim⟩
  · subst h; rfl
  · subst hk
    simp [signatureGatePasses, htrim]

/-- Claim C5 witness: an unset key with a malformed header present. -/
theorem claim_C5_witness :
    signatureGatePasses (fun _ _ => "00ff") "{}" (some "garbage") none = true :=
  claim_C5_no_key_skips_verification (fun _ _ => "00ff") "{}" (some "garbage") none
    (Or.inl rfl)

/-- Claim C6: `verifyCalendlySignature` is a total boolean function (the
embedding returns a `Bool` on every input, modelling that the JavaScript
try/catch lets no exception escape), and it returns `false` both when the
header is malformed — its comma-split contains no `t=` part or no `v1=`
part — and when the provided and expected signatures decode to byte
buffers of different lengths. -/
theorem claim_C6_verify_fails_closed (hmac : String → String → String)
    (payload header key : String) :
    (((splitOnComma header.data).find? (fun p => List.isPrefixOf ['t', '='] p) = none ∨
      (splitOnComma header.data).find? (fun p => List.isPrefixOf ['v', '1', '='] p) = none) →
      verifyCalendlySignature hmac payload (some header) (some key) = false) ∧
    (∀ timestampPart signaturePart,
      (splitOnComma header.data).find? (fun p => List.isPrefixOf ['t', '='] p)
        = some timestampPart →
      (splitOnComma header.data).find? (fun p => List.isPrefixOf ['v', '1', '='] p)
        = some signaturePart →
      (hexDecode (signaturePart.drop 3)).length ≠
        (hexDecode (hmac key (String.mk (timestampPart.drop 2) ++ "." ++ payload)).data).length →
      verifyCalendlySignature hmac payload (some header) (some key) = false) := by
  constructor
  · intro h
    by_cases he : header = "" ∨ key = ""
    · rw [verifyCalendlySignature, if_pos he]
    · rcases h with h | h
      · rcases hv : (splitOnComma header.data).find? (fun p => List.isPrefixOf ['v', '1', '='] p)
          with _ | sp <;>
          · rw [verifyCalendlySignature, if_neg he]
            simp only [h, hv]
      · rcases ht : (splitOnComma header.data).find? (fun p => List.isPrefixOf ['t', '='] p)
          with _ | tp <;>
          · rw [verifyCalendlySignature, if_neg he]
            simp only [h, ht]
  · intro timestampPart signaturePart ht hv hlen
    by_cases he : header = "" ∨ key = ""
    · rw [verifyCalendlySignature, if_pos he]
    · rw [verifyCalendlySignature, if_neg he]
      simp only [ht, hv]
      rw [if_pos hlen]

/-- Claim C6 witness: a header with no `v1=` part, and a well-formed header
whose signature is shorter than the digest. -/
theorem claim_C6_witness :
    verifyCalendlySignature (fun _ _ => "00ff") "{}" (some "t=123,x=9") (some "key") = false ∧
    verifyCalendlySignature (fun _ _ => "00ff") "{}" (some "t=123,v1=00") (some "key") = false :=
  ⟨(claim_C6_verify_fails_closed (fun _ _ => "00ff") "{}" "t=123,x=9" "key").1
      (Or.inr (by decide)),
   (claim_C6_verify_fails_closed (fun _ _ => "00ff") "{}" "t=123,v1=00" "key").2
      ['t', '=', '1', '2', '3'] ['v', '1', '=', '0', '0'] (by decide) (by decide) (by decide)⟩

/-! ## Claims about the event detail extractor -/

theorem jsToLowerOpt_defaulted (v w : JsVal) (h : jsToLowerOpt v = .ok w) :
    ∃ s, stringOfJs (jsOr w (.str "")) = jsToLower s := by
  cases v with
  | undefined =>
    cases h
    exact ⟨"", rfl⟩
  | null =>
    cases h
    exact ⟨"", rfl⟩
  | str s =>
    cases h
    by_cases hs : jsToLower s = ""
    · refine ⟨"", ?_⟩
      have h0 : jsToLower "" = "" := rfl
      simp [jsOr, jsTruthy, stringOfJs, hs, h0]
    · exact ⟨s, by simp [jsOr, jsTruthy, stringOfJs, hs]⟩
  | bool b => exact absurd h (by simp [jsToLowerOpt])
  | num n => exact absurd h (by simp [jsToLowerOpt])
  | arr xs => exact absurd h (by simp [jsToLowerOpt])
  | obj fs => exact absurd h (by simp [jsToLowerOpt])

/-- Whenever `extractEventDetails` returns, its `externalId` is computed by
`externalIdOf` over `payload.scheduled_event || ` the empty object, its
`hostEmail` and `inviteeEmail` come from the two lower-casing steps, and
`calendarId` equals `hostEmail`. -/
theorem extractEventDetails_ok_shape (p : JsVal) (d : EventDetails)
    (h : extractEventDetails p = .ok d) :
    d.externalId = externalIdOf (jsOr (jsField p "scheduled_event") (.obj [])) ∧
    (∃ s, d.hostEmail = jsToLower s) ∧ (∃ s, d.inviteeEmail = jsToLower s) ∧
    d.calendarId = d.hostEmail := by
  simp only [extractEventDetails] at h
  split at h
  · exact absurd h (by simp)
  · split at h
    · exact absurd h (by simp)
    · next hostMembership hfind =>
      split at h
      · exact absurd h (by simp)
      · next hostLowered hhost =>
        split at h
        · exact absurd h (by simp)
        · next inviteeLowered hinv =>
          cases h
          exact ⟨rfl, jsToLowerOpt_defaulted _ _ hhost,
            jsToLowerOpt_defaulted _ _ hinv, rfl⟩

theorem externalIdOf_empty (sev : JsVal)
    (h1 : jsTruthy (jsField sev "external_id") = false)
    (h2 : jsTruthy (jsField (jsField sev "calendar_event") "external_id") = false) :
    externalIdOf sev = .str "" := by
  have h0 : jsTruthy (.str "") = false := rfl
  simp only [externalIdOf, jsOr, h1, Bool.false_eq_true, if_false, h0,
    Bool.not_false, Bool.true_and]
  by_cases hc : jsTruthy (jsField sev "calendar_event") = true
  · rw [if_pos hc, if_neg (by simp [h2])]
  · rw [if_neg (by simp [hc])]

/-- Claim C7, amended: when the identifier is absent (or falsy) both at
`scheduled_event.external_id` and at the one fallback location
`scheduled_event.calendar_event.external_id`, `extractEventDetails`
returns it as the empty string; no further location is consulted. (The
original claim denied the fallback; `claim_C7_counterexample` shows the
code does consult it.) -/
theorem claim_C7_external_id_defaults_empty (p : JsVal) (d : EventDetails)
    (h : extractEventDetails p = .ok d)
    (h1 : jsTruthy (jsField (jsOr (jsField p "scheduled_event") (.obj [])) "external_id")
      = false)
    (h2 : jsTruthy (jsField (jsField (jsOr (jsField p "scheduled_event") (.obj []))
        "calendar_event") "external_id") = false) :
    d.externalId = .str "" := by
  rw [(extractEventDetails_ok_shape p d h).1]
  exact externalIdOf_empty _ h1 h2

/-- Claim C7 witness: a payload with no external identifier anywhere. -/
theorem claim_C7_witness :
    extractEventDetails (.obj [("scheduled_event",
        .obj [("location", .str "https://zoom.example")])])
      = .ok { hostEmail := "", inviteeEmail := "", externalId := .str "",
              calendarId := "", eventName := .str "Untitled Event",
              eventUri := .str "", startTime := .undefined, endTime := .undefined,
              rawScheduledEvent := .obj [("location", .str "https://zoom.example")] } ∧
    EventDetails.externalId
      { hostEmail := "", inviteeEmail := "", externalId := .str "",
        calendarId := "", eventName := .str "Untitled Event",
        eventUri := .str "", startTime := .undefined, endTime := .undefined,
        rawScheduledEvent := .obj [("location", .str "https://zoom.example")] } = .str "" :=
  ⟨rfl, claim_C7_external_id_defaults_empty
    (.obj [("scheduled_event", .obj [("location", .str "https://zoom.example")])])
    { hostEmail := "", inviteeEmail := "", externalId := .str "",
      calendarId := "", eventName := .str "Untitled Event",
      eventUri := .str "", startTime := .undefined, endTime := .undefined,
      rawScheduledEvent := .obj [("location", .str "https://zoom.example")] }
    rfl rfl rfl⟩

/-- Claim C7 counterexample: `scheduled_event.external_id` is absent but
`scheduled_event.calendar_event.external_id` is present, and
`extractEventDetails` returns the latter, not the empty string — the code
does infer the identifier from an alternate path (route.js lines 157-161). -/
theorem claim_C7_counterexample :
    (extractEventDetails (.obj [("scheduled_event",
        .obj [("calendar_event", .obj [("external_id", .str "evt123")])])])).map
      (fun d => d.externalId) = .ok (.str "evt123") ∧
    JsVal.str "evt123" ≠ JsVal.str "" := by
  constructor
  · rfl
  · intro h
    injection h with h
    exact absurd h (by decide)

/-- Claim C8, amended: `extractEventDetails` can raise on payloads of
unexpected shape (for example a `null` payload, where `Object.keys`
throws — `claim_C8_counterexample`); whenever it does return, `hostEmail`
and `inviteeEmail` are lower-cased strings, and on a payload carrying none
of the expected parts every field of the result takes the extractor's
fixed default: the empty string for `hostEmail`, `inviteeEmail`,
`externalId`, `calendarId` and `eventUri`, absent (`undefined`)
`startTime` and `endTime`, the empty object for the raw scheduled event,
and the non-empty placeholder `"Untitled Event"` for `eventName`
(route.js line 181). -/
theorem claim_C8_defensive_defaults :
    (∀ p d, extractEventDetails p = .ok d →
      (∃ s, d.hostEmail = jsToLower s) ∧ (∃ s, d.inviteeEmail = jsToLower s)) ∧
    extractEventDetails (.obj [])
      = .ok { hostEmail := "", inviteeEmail := "", externalId := .str "",
              calendarId := "", eventName := .str "Untitled Event",
              eventUri := .str "", startTime := .undefined, endTime := .undefined,
              rawScheduledEvent := .obj [] } := by
  refine ⟨fun p d h => ?_, rfl⟩
  obtain ⟨-, hh, hi, -⟩ := extractEventDetails_ok_shape p d h
  exact ⟨hh, hi⟩

/-- Claim C8 witness: the lower-casing conclusion at a concrete payload
with mixed-case emails. -/
theorem claim_C8_witness :
    (∃ s, "christina@magicalteams.com" = jsToLower s) ∧
    (∃ s, "guest@example.com" = jsToLower s) :=
  claim_C8_defensive_defaults.1
    (.obj [("scheduled_event", .obj
        [("event_memberships", .arr [.obj
          [("user", .str "u1"), ("user_email", .str "Christina@MagicalTeams.com")]])]),
      ("invitee", .obj [("email", .str "Guest@Example.COM")])])
    { hostEmail := "christina@magicalteams.com",
      inviteeEmail := "guest@example.com", externalId := .str "",
      calendarId := "christina@magicalteams.com",
      eventName := .str "Untitled Event", eventUri := .str "",
      startTime := .undefined, endTime := .undefined,
      rawScheduledEvent := .obj [("event_memberships", .arr [.obj
        [("user", .str "u1"), ("user_email", .str "Christina@MagicalTeams.com")]])] }
    rfl

/-- Claim C8 counterexample: on a `null` payload — deliverable as the JSON
body `\x7b"event":"invitee.created","payload":null\x7d` — the code throws a
`TypeError` at `Object.keys(payload)` (route.js line 137) instead of
returning a defaulted record. -/
theorem claim_C8_counterexample :
    extractEventDetails .null
      = .error "TypeError: Cannot convert undefined or null to object" := rfl

/-! ## Claims about the webhook handler pipeline -/

/-- Claim C2: a remote event snapshot whose attendee list already contains
the target notetaker address under case-insensitive email comparison makes
the handler decide no-op: it issues no patch call (the single outbound call
is the fetch), and responds with the success-status (200) body
carrying the message, `processed:false`, and the existing attendee emails.
The hypotheses state that the request reached the decision point: signature
gate passed, event type is `invitee.created`, extraction succeeded, the
host is authorized, the external id is present, and a service key is
configured. -/
theorem claim_C2_noop_when_notetaker_present (env : Env)
    (hmac : String → String → String) (rawBody : String)
    (signatureHeader : Option String) (payload innerPayload : JsVal)
    (details : EventDetails) (serviceKey : String) (ev : RemoteEvent)
    (patchResult : PatchResult)
    (hgate : signatureGatePasses hmac rawBody signatureHeader
      env.CALENDLY_WEBHOOK_SIGNING_KEY = true)
    (hevt : jsFieldE payload "event" = .ok (.str "invitee.created"))
    (hpl : jsFieldE payload "payload" = .ok innerPayload)
    (hex : extractEventDetails innerPayload = .ok details)
    (hauth : AUTHORIZED_HOSTS.contains details.hostEmail = true)
    (hid : jsTruthy details.externalId = true)
    (hsvc : env.GOOGLE_SERVICE_ACCOUNT_KEY = some serviceKey)
    (hmem : notetakerExists (notetakerEmailOf env) (ev.attendees.getD []) = true) :
    handlePOST env hmac rawBody signatureHeader payload (.ok ev) patchResult
      = ({ status := 200
           body := .alreadyExists ((ev.attendees.getD []).map (·.email)) },
         [Call.get details.calendarId details.externalId]) := by
  have hstr : jsStrictEqStr (.str "invitee.created") "invitee.created" = true := by decide
  have hmemb : details.hostEmail ∈ AUTHORIZED_HOSTS := by simpa using hauth
  simp [handlePOST, hgate, hevt, hpl, hex, hmemb, hid, hsvc, hmem, hstr, processSnapshot]

/-- Claim C2 witness: a concrete pipeline run in which the notetaker
already appears (upper-cased) among the attendees. -/
theorem claim_C2_witness :
    handlePOST ⟨none, none, some "svc"⟩ (fun _ _ => "00") "" none
      (.obj [("event", .str "invitee.created"),
             ("payload", .obj
               [("scheduled_event", .obj
                 [("external_id", .str "Evt1"),
                  ("event_memberships", .arr [.obj
                    [("user", .str "u1"),
                     ("user_email", .str "Christina@MagicalTeams.com")]])]),
                ("invitee", .obj [("email", .str "Guest@Example.com")])])])
      (.ok ⟨some [⟨some "NoteTaker@MagicalTeams.com", some "accepted"⟩]⟩) .ok
      = ({ status := 200
           body := .alreadyExists [some "NoteTaker@MagicalTeams.com"] },
         [Call.get "christina@magicalteams.com" (.str "Evt1")]) :=
  claim_C2_noop_when_notetaker_present ⟨none, none, some "svc"⟩ (fun _ _ => "00") "" none
    (.obj [("event", .str "invitee.created"),
           ("payload", .obj
             [("scheduled_event", .obj
               [("external_id", .str "Evt1"),
                ("event_memberships", .arr [.obj
                  [("user", .str "u1"),
                   ("user_email", .str "Christina@MagicalTeams.com")]])]),
              ("invitee", .obj [("email", .str "Guest@Example.com")])])])
    (.obj [("scheduled_event", .obj
             [("external_id", .str "Evt1"),
              ("event_memberships", .arr [.obj
                [("user", .str "u1"),
                 ("user_email", .str "Christina@MagicalTeams.com")]])]),
           ("invitee", .obj [("email", .str "Guest@Example.com")])])
    { hostEmail := "christina@magicalteams.com",
      inviteeEmail := "guest@example.com", externalId := .str "Evt1",
      calendarId := "christina@magicalteams.com",
      eventName := .str "Untitled Event", eventUri := .str "",
      startTime := .undefined, endTime := .undefined,
      rawScheduledEvent := .obj
        [("external_id", .str "Evt1"),
         ("event_memberships", .arr [.obj
           [("user", .str "u1"),
            ("user_email", .str "Christina@MagicalTeams.com")]])] }
    "svc" ⟨some [⟨some "NoteTaker@MagicalTeams.com", some "accepted"⟩]⟩ .ok
    rfl rfl rfl rfl rfl rfl rfl rfl

/-- Claim C3 counterexample: the entry the code appends carries
`responseStatus: "needsAction"` (route.js line 350), not `"needs-action"`
as the claim states. -/
theorem claim_C3_counterexample :
    updatedAttendees "notetaker@magicalteams.com" []
      = [{ email := some "notetaker@magicalteams.com",
           responseStatus := some "needsAction" }] ∧
    ({ email := some "notetaker@magicalteams.com",
       responseStatus := some "needsAction" } : Attendee)
      ≠ { email := some "notetaker@magicalteams.com",
          responseStatus := some "needs-action" } :=
  ⟨rfl, by decide⟩

/-- Claim C3, amended: for every remote event snapshot whose attendee list
does not contain the target notetaker address (case-insensitive), the
handler issues exactly one patch call, whose attendee list equals the
snapshot's original attendee list with exactly one entry
`email = target, responseStatus = "needsAction"` appended at the end —
order of all existing entries preserved, none removed — whatever the patch
outcome. (The original claim's `"needs-action"` is refuted by
`claim_C3_counterexample`.) -/
theorem claim_C3_single_append_patch (env : Env)
    (hmac : String → String → String) (rawBody : String)
    (signatureHeader : Option String) (payload innerPayload : JsVal)
    (details : EventDetails) (serviceKey : String) (ev : RemoteEvent)
    (patchResult : PatchResult)
    (hgate : signatureGatePasses hmac rawBody signatureHeader
      env.CALENDLY_WEBHOOK_SIGNING_KEY = true)
    (hevt : jsFieldE payload "event" = .ok (.str "invitee.created"))
    (hpl : jsFieldE payload "payload" = .ok innerPayload)
    (hex : extractEventDetails innerPayload = .ok details)
    (hauth : AUTHORIZED_HOSTS.contains details.hostEmail = true)
    (hid : jsTruthy details.externalId = true)
    (hsvc : env.GOOGLE_SERVICE_ACCOUNT_KEY = some serviceKey)
    (hmem : notetakerExists (notetakerEmailOf env) (ev.attendees.getD []) = false) :
    (handlePOST env hmac rawBody signatureHeader payload (.ok ev) patchResult).2
      = [Call.get details.calendarId details.externalId,
         Call.patch details.calendarId details.externalId
           ((ev.attendees.getD []) ++
             [{ email := some (notetakerEmailOf env),
                responseStatus := some "needsAction" }]) "all"] := by
  have hstr : jsStrictEqStr (.str "invitee.created") "invitee.created" = true := by decide
  have hmemb : details.hostEmail ∈ AUTHORIZED_HOSTS := by simpa using hauth
  cases patchResult <;>
    simp [handlePOST, hgate, hevt, hpl, hex, hmemb, hid, hsvc, hmem, hstr,
      processSnapshot, updatedAttendees]

/-- Claim C3 witness: a concrete run without the notetaker present; the
call trace is the fetch followed by exactly one patch appending the
notetaker after the one existing attendee. -/
theorem claim_C3_witness :
    (handlePOST ⟨none, none, some "svc"⟩ (fun _ _ => "00") "" none
      (.obj [("event", .str "invitee.created"),
             ("payload", .obj
               [("scheduled_event", .obj
                 [("external_id", .str "Evt1"),
                  ("event_memberships", .arr [.obj
                    [("user", .str "u1"),
                     ("user_email", .str "Christina@MagicalTeams.com")]])]),
                ("invitee", .obj [("email", .str "Guest@Example.com")])])])
      (.ok ⟨some [⟨some "guest@example.com", some "accepted"⟩]⟩) .ok).2
      = [Call.get "christina@magicalteams.com" (.str "Evt1"),
         Call.patch "christina@magicalteams.com" (.str "Evt1")
           [⟨some "guest@example.com", some "accepted"⟩,
            ⟨some "notetaker@magicalteams.com", some "needsAction"⟩] "all"] :=
  claim_C3_single_append_patch ⟨none, none, some "svc"⟩ (fun _ _ => "00") "" none
    (.obj [("event", .str "invitee.created"),
           ("payload", .obj
             [("scheduled_event", .obj
               [("external_id", .str "Evt1"),
                ("event_memberships", .arr [.obj
                  [("user", .str "u1"),
                   ("user_email", .str "Christina@MagicalTeams.com")]])]),
              ("invitee", .obj [("email", .str "Guest@Example.com")])])])
    (.obj [("scheduled_event", .obj
             [("external_id", .str "Evt1"),
              ("event_memberships", .arr [.obj
                [("user", .str "u1"),
                 ("user_email", .str "Christina@MagicalTeams.com")]])]),
           ("invitee", .obj [("email", .str "Guest@Example.com")])])
    { hostEmail := "christina@magicalteams.com",
      inviteeEmail := "guest@example.com", externalId := .str "Evt1",
      calendarId := "christina@magicalteams.com",
      eventName := .str "Untitled Event", eventUri := .str "",
      startTime := .undefined, endTime := .undefined,
      rawScheduledEvent := .obj
        [("external_id", .str "Evt1"),
         ("event_memberships", .arr [.obj
           [("user", .str "u1"),
            ("user_email", .str "Christina@MagicalTeams.com")]])] }
    "svc" ⟨some [⟨some "guest@example.com", some "accepted"⟩]⟩ .ok
    rfl rfl rfl rfl rfl rfl rfl rfl

/-- Claim C4: an `invitee.created` notification whose extracted host email
is not a case-insensitive member of the authorized host set yields the
success-status body with the message, `processed:false`, and the host
email, and issues no outbound calendar call at all — neither fetch nor
patch — for any outcome the calendar system would have given them. -/
theorem claim_C4_unauthorized_short_circuits (env : Env)
    (hmac : String → String → String) (rawBody : String)
    (signatureHeader : Option String) (payload innerPayload : JsVal)
    (details : EventDetails) (fetchResult : FetchResult) (patchResult : PatchResult)
    (hgate : signatureGatePasses hmac rawBody signatureHeader
      env.CALENDLY_WEBHOOK_SIGNING_KEY = true)
    (hevt : jsFieldE payload "event" = .ok (.str "invitee.created"))
    (hpl : jsFieldE payload "payload" = .ok innerPayload)
    (hex : extractEventDetails innerPayload = .ok details)
    (hauth : ∀ h ∈ AUTHORIZED_HOSTS, jsToLower h ≠ jsToLower details.hostEmail) :
    handlePOST env hmac rawBody signatureHeader payload fetchResult patchResult
      = ({ status := 200, body := .notAuthorized details.hostEmail }, []) := by
  have hstr : jsStrictEqStr (.str "invitee.created") "invitee.created" = true := by decide
  have hnotmem : details.hostEmail ∉ AUTHORIZED_HOSTS := by
    intro hm
    simp [AUTHORIZED_HOSTS] at hm
    rcases hm with h | h | h <;>
      exact (hauth _ (by simp [AUTHORIZED_HOSTS])) (congrArg jsToLower h.symm)
  simp [handlePOST, hgate, hevt, hpl, hex, hnotmem, hstr]

/-- Claim C4 witness: a concrete notification from an unauthorized host;
no call is issued even though the calendar oracle stands ready. -/
theorem claim_C4_witness :
    handlePOST ⟨none, none, some "svc"⟩ (fun _ _ => "00") "" none
      (.obj [("event", .str "invitee.created"),
             ("payload", .obj
               [("scheduled_event", .obj
                 [("external_id", .str "Evt1"),
                  ("event_memberships", .arr [.obj
                    [("user", .str "u1"),
                     ("user_email", .str "Bob@Example.com")]])])])])
      (.ok ⟨some []⟩) .ok
      = ({ status := 200, body := .notAuthorized "bob@example.com" }, []) :=
  claim_C4_unauthorized_short_circuits ⟨none, none, some "svc"⟩ (fun _ _ => "00") "" none
    (.obj [("event", .str "invitee.created"),
           ("payload", .obj
             [("scheduled_event", .obj
               [("external_id", .str "Evt1"),
                ("event_memberships", .arr [.obj
                  [("user", .str "u1"),
                   ("user_email", .str "Bob@Example.com")]])])])])
    (.obj [("scheduled_event", .obj
             [("external_id", .str "Evt1"),
              ("event_memberships", .arr [.obj
                [("user", .str "u1"),
                 ("user_email", .str "Bob@Example.com")]])])])
    { hostEmail := "bob@example.com", inviteeEmail := "",
      externalId := .str "Evt1", calendarId := "bob@example.com",
      eventName := .str "Untitled Event", eventUri := .str "",
      startTime := .undefined, endTime := .undefined,
      rawScheduledEvent := .obj
        [("external_id", .str "Evt1"),
         ("event_memberships", .arr [.obj
           [("user", .str "u1"),
            ("user_email", .str "Bob@Example.com")]])] }
    (.ok ⟨some []⟩) .ok rfl rfl rfl rfl (by decide)

/-- Claim C9 counterexample: a provider error with truthy code 403 on the
fetch is surfaced with status 403 — not a 500-class status — because the
outer catch uses `error.code || 500` (route.js line 389). The body shape
`error, message, details` does hold. -/
theorem claim_C9_counterexample :
    (handlePOST ⟨none, none, some "svc"⟩ (fun _ _ => "00") "" none
      (.obj [("event", .str "invitee.created"),
             ("payload", .obj
               [("scheduled_event", .obj
                 [("external_id", .str "Evt1"),
                  ("event_memberships", .arr [.obj
                    [("user", .str "u1"),
                     ("user_email", .str "Christina@MagicalTeams.com")]])])])])
      (.err ⟨some 403, "Forbidden", none⟩) .ok)
      = ({ status := 403, body := .serverError "Forbidden" none },
         [Call.get "christina@magicalteams.com" (.str "Evt1")]) ∧
    ¬ (500 ≤ 403 ∧ 403 < 600) :=
  ⟨rfl, by decide⟩

/-- Claim C9, amended: every failure raised by the outbound calendar fetch
other than the not-found (code 404) case, and every failure raised by the
patch, is caught by the orchestrator — no exception escapes, the embedding
being total — and surfaced as the structured body
`error, message, details` with status `error.code || 500`: the error's own
truthy numeric code when it has one (hence not necessarily 500-class —
see `claim_C9_counterexample`), and 500 otherwise. -/
theorem claim_C9_provider_errors_caught (env : Env)
    (hmac : String → String → String) (rawBody : String)
    (signatureHeader : Option String) (payload innerPayload : JsVal)
    (details : EventDetails) (serviceKey : String)
    (hgate : signatureGatePasses hmac rawBody signatureHeader
      env.CALENDLY_WEBHOOK_SIGNING_KEY = true)
    (hevt : jsFieldE payload "event" = .ok (.str "invitee.created"))
    (hpl : jsFieldE payload "payload" = .ok innerPayload)
    (hex : extractEventDetails innerPayload = .ok details)
    (hauth : AUTHORIZED_HOSTS.contains details.hostEmail = true)
    (hid : jsTruthy details.externalId = true)
    (hsvc : env.GOOGLE_SERVICE_ACCOUNT_KEY = some serviceKey) :
    (∀ e patchResult, e.code ≠ some 404 →
      handlePOST env hmac rawBody signatureHeader payload (.err e) patchResult
        = ({ status := errStatus e.code, body := .serverError e.message e.errors },
           [Call.get details.calendarId details.externalId])) ∧
    (∀ ev e, notetakerExists (notetakerEmailOf env) (ev.attendees.getD []) = false →
      handlePOST env hmac rawBody signatureHeader payload (.ok ev) (.err e)
        = ({ status := errStatus e.code, body := .serverError e.message e.errors },
           [Call.get details.calendarId details.externalId,
            Call.patch details.calendarId details.externalId
              (updatedAttendees (notetakerEmailOf env) (ev.attendees.getD [])) "all"])) := by
  have hstr : jsStrictEqStr (.str "invitee.created") "invitee.created" = true := by decide
  have hmemb : details.hostEmail ∈ AUTHORIZED_HOSTS := by simpa using hauth
  constructor
  · intro e patchResult hne
    have h404 : (e.code == some 404) = false := by
      simp [hne]
    simp [handlePOST, hgate, hevt, hpl, hex, hmemb, hid, hsvc, hstr, h404]
  · intro ev e hmem
    simp [handlePOST, hgate, hevt, hpl, hex, hmemb, hid, hsvc, hstr, hmem,
      processSnapshot, updatedAttendees]

/-- Claim C9 witness: a code-less fetch failure (e.g. a network-level
error) surfaces as status 500 with the structured body. -/
theorem claim_C9_witness :
    handlePOST ⟨none, none, some "svc"⟩ (fun _ _ => "00") "" none
      (.obj [("event", .str "invitee.created"),
             ("payload", .obj
               [("scheduled_event", .obj
                 [("external_id", .str "Evt1"),
                  ("event_memberships", .arr [.obj
                    [("user", .str "u1"),
                     ("user_email", .str "Christina@MagicalTeams.com")]])])])])
      (.err ⟨none, "socket hang up", none⟩) .ok
      = ({ status := 500, body := .serverError "socket hang up" none },
         [Call.get "christina@magicalteams.com" (.str "Evt1")]) :=
  (claim_C9_provider_errors_caught ⟨none, none, some "svc"⟩ (fun _ _ => "00") "" none
    (.obj [("event", .str "invitee.created"),
           ("payload", .obj
             [("scheduled_event", .obj
               [("external_id", .str "Evt1"),
                ("event_memberships", .arr [.obj
                  [("user", .str "u1"),
                   ("user_email", .str "Christina@MagicalTeams.com")]])])])])
    (.obj [("scheduled_event", .obj
             [("external_id", .str "Evt1"),
              ("event_memberships", .arr [.obj
                [("user", .str "u1"),
                 ("user_email", .str "Christina@MagicalTeams.com")]])])])
    { hostEmail := "christina@magicalteams.com", inviteeEmail := "",
      externalId := .str "Evt1", calendarId := "christina@magicalteams.com",
      eventName := .str "Untitled Event", eventUri := .str "",
      startTime := .undefined, endTime := .undefined,
      rawScheduledEvent := .obj
        [("external_id", .str "Evt1"),
         ("event_memberships", .arr [.obj
           [("user", .str "u1"),
            ("user_email", .str "Christina@MagicalTeams.com")]])] }
    "svc" rfl rfl rfl rfl rfl rfl rfl).1
    ⟨none, "socket hang up", none⟩ .ok (by simp)

/-- Claim C10: an attendee entry lacking an email field never makes the
membership check raise (the check is a total boolean: the entry simply
does not match, and contributes nothing to `some(...)`), and in the
patched attendee list every original entry — that one included — appears
unchanged at its original position. -/
theorem claim_C10_missing_email_harmless (notetakerEmail : String) (a : Attendee)
    (ha : a.email = none) :
    attendeeIsNotetaker notetakerEmail a = false ∧
    (∀ rest, notetakerExists notetakerEmail (a :: rest)
      = notetakerExists notetakerEmail rest) ∧
    (∀ attendees : List Attendee, ∀ i, i < attendees.length →
      (updatedAttendees notetakerEmail attendees)[i]? = attendees[i]?) := by
  have h1 : attendeeIsNotetaker notetakerEmail a = false := by
    simp [attendeeIsNotetaker, ha]
  refine ⟨h1, fun rest => ?_, fun attendees i hi => ?_⟩
  · simp [notetakerExists, List.any_cons, h1]
  · rw [updatedAttendees, List.getElem?_append, if_pos hi]

/-- Claim C10 witness: an email-less attendee neither matches nor moves. -/
theorem claim_C10_witness :
    attendeeIsNotetaker "notetaker@magicalteams.com"
      { email := none, responseStatus := some "accepted" } = false ∧
    (updatedAttendees "notetaker@magicalteams.com"
      [{ email := none, responseStatus := some "accepted" }])[0]?
      = some { email := none, responseStatus := some "accepted" } :=
  ⟨(claim_C10_missing_email_harmless "notetaker@magicalteams.com"
      { email := none, responseStatus := some "accepted" } rfl).1,
   (claim_C10_missing_email_harmless "notetaker@magicalteams.com"
      { email := none, responseStatus := some "accepted" } rfl).2.2
     [{ email := none, responseStatus := some "accepted" }] 0 (by decide)⟩

end CalendlyNotetaker
